import Mathlib

/-!
Verification of the AgentXTracker trace-evaluation core against its
natural-language specification.

The development shallowly embeds the two components the claims are about:

* the defensive trace normalizers (`safeGetTraceData`, `validateTimestamp`,
  `safeStringify`, `extractSafeProperties`) — the repository carries two
  variants, one in `src/unnamed/part_003` (namespace `Part3`) and one in
  `src/web/src/features/evals/components/custom-trace-table.tsx`
  (namespace `Web`);
* the evaluation-session coordinator (`validateEvaluation`,
  `executeEvaluation`) from `src/unnamed/part_001`, and the per-fetch retry
  predicate of `TracesTable`.

JavaScript runtime values are modelled by the inductive `JsValue`.  Numbers
are modelled as integers (the code under scrutiny only branches on
`typeof`/truthiness of numbers, never on fractional values; `NaN` and
non-integer doubles are outside the model).  JavaScript builtins whose
behaviour the repository does not define — `Date` parsing, `toISOString`,
`JSON.stringify` — are supplied through a `JsEnv` record of oracle
functions; every theorem is proved for an arbitrary environment, and
witnesses instantiate a concrete executable one.
-/

namespace AgentXTracker

/-- A JavaScript runtime value.  `date none` models an `Invalid Date`
object, `date (some t)` a `Date` holding epoch-milliseconds `t`. -/
inductive JsValue where
  | undefined
  | null
  | bool (b : Bool)
  | num (n : Int)
  | str (s : String)
  | date (millis : Option Int)
  | obj (fields : List (String × JsValue))
  | arr (elems : List JsValue)

/-- JavaScript truthiness.  `undefined`, `null`, `false`, `0` and `""` are
falsy; every object (including arrays and invalid dates) is truthy. -/
def truthy : JsValue → Bool
  | .undefined => false
  | .null => false
  | .bool b => b
  | .num n => n != 0
  | .str s => s != ""
  | .date _ => true
  | .obj _ => true
  | .arr _ => true

/-- `typeof v === "object"`.  Note `typeof null === "object"` in JavaScript. -/
def typeofIsObject : JsValue → Bool
  | .null => true
  | .date _ => true
  | .obj _ => true
  | .arr _ => true
  | _ => false

/-- `Array.isArray v`. -/
def isArray : JsValue → Bool
  | .arr _ => true
  | _ => false

/-- The guard used by both normalizers:
`!(!raw || typeof raw !== "object" || Array.isArray(raw))`, i.e. `raw` is a
truthy non-array object. -/
def isNonArrayObject : JsValue → Bool
  | .obj _ => true
  | .date _ => true
  | _ => false

/-- Decimal digit character: `digitChar d` is the character JavaScript uses
for the decimal digit `d` (only `d < 10` is ever reached). -/
def digitChar : Nat → Char
  | 0 => '0' | 1 => '1' | 2 => '2' | 3 => '3' | 4 => '4'
  | 5 => '5' | 6 => '6' | 7 => '7' | 8 => '8' | 9 => '9'
  | _ => '*'

/-- Digit list of the decimal representation of `n`; `fuel` bounds the
recursion (any `fuel > n` is enough). -/
def natDecimalAux : Nat → Nat → List Char
  | 0, _ => []
  | fuel + 1, n =>
    if n < 10 then [digitChar n]
    else natDecimalAux fuel (n / 10) ++ [digitChar (n % 10)]

/-- Decimal string of a natural number, as JavaScript number-to-string
conversion produces for non-negative integers. -/
def natDecimal (n : Nat) : String :=
  ⟨natDecimalAux (n + 1) n⟩

/-- JavaScript `String(n)` for an integral number. -/
def intDecimal (n : Int) : String :=
  if n < 0 then "-" ++ natDecimal n.natAbs else natDecimal n.toNat

/-- JavaScript `String(b)`. -/
def boolString (b : Bool) : String :=
  if b then "true" else "false"

/-- Parse a canonical decimal array-index key (as produced by
`natDecimal`); `none` for anything else. -/
def decimalIndex (k : String) : Option Nat :=
  match k.toNat? with
  | some i => if natDecimal i = k then some i else none
  | none => none

/-- Property access `v[k]`: `undefined` when absent.  Strings and arrays
expose their element index properties (their only own enumerable
properties); primitives have no own properties.  (The non-enumerable
`length` property is not modelled; no code under scrutiny reads it.) -/
def getProp : JsValue → String → JsValue
  | .obj fields, k =>
    match fields.lookup k with
    | some v => v
    | none => .undefined
  | .str s, k =>
    match decimalIndex k with
    | some i =>
      match s.data.get? i with
      | some c => .str (String.singleton c)
      | none => .undefined
    | none => .undefined
  | .arr es, k =>
    match decimalIndex k with
    | some i =>
      match es.get? i with
      | some v => v
      | none => .undefined
    | none => .undefined
  | _, _ => .undefined

/-- Own enumerable property keys in `for…in` order: object keys in
insertion order (JavaScript objects never hold duplicate keys; `dedup`
makes that explicit), index keys for strings and arrays, nothing for
primitives and `Date` objects. -/
def ownKeys : JsValue → List String
  | .obj fields => (fields.map Prod.fst).dedup
  | .str s => (List.range s.length).map natDecimal
  | .arr es => (List.range es.length).map natDecimal
  | _ => []

/-- Whitespace stripped by JavaScript `String.prototype.trim`.  (The exotic
Unicode space separators are omitted; no claim depends on them.) -/
def isWsChar (c : Char) : Bool :=
  c = ' ' || c = '\t' || c = '\n' || c = '\r' ||
  c = '\x0b' || c = '\x0c' || c = ' '

/-- JavaScript `s.trim()`. -/
def jsTrim (s : String) : String :=
  ⟨((s.data.dropWhile isWsChar).reverse.dropWhile isWsChar).reverse⟩

/-- JavaScript `a || b`. -/
def jsOr (a b : JsValue) : JsValue :=
  if truthy a then a else b

/-- Oracle record for the JavaScript builtins the repository code calls but
does not define.  `nowMillis`/`randSuffix` capture one observation of
`Date.now()` and `Math.random().toString(36).substr(2, 9)`;
`parseDateString s` is `new Date(s).getTime()` (`none` when `NaN`);
`toISO` is `Date.prototype.toISOString`; `stringify` is `JSON.stringify(v)`
and `stringifyPretty` is `JSON.stringify(v, null, 2)`; `newDateOfObject`
is `new Date(v)` for object/array arguments (string coercion then parse). -/
structure JsEnv where
  nowMillis : Nat
  randSuffix : String
  parseDateString : String → Option Int
  toISO : Int → String
  stringify : JsValue → String
  stringifyPretty : JsValue → String
  newDateOfObject : JsValue → Option Int

/-- `new Date().toISOString()` at the environment's current instant. -/
def nowISO (env : JsEnv) : String :=
  env.toISO (Int.ofNat env.nowMillis)

/-- `new Date(n).getTime()` for a number `n`: valid exactly when the
magnitude is within the ECMAScript time range of ±8.64e15 ms. -/
def dateFromMillis (n : Int) : Option Int :=
  if n.natAbs ≤ 8640000000000000 then some n else none

/-- `new Date(v).getTime()` for an arbitrary single argument, `none` when
the result is an `Invalid Date`. -/
def jsNewDate (env : JsEnv) : JsValue → Option Int
  | .str s => env.parseDateString s
  | .num n => dateFromMillis n
  | .date m =>
    match m with
    | some t => dateFromMillis t
    | none => none
  | .bool b => dateFromMillis (if b then 1 else 0)
  | .null => dateFromMillis 0
  | .undefined => none
  | .obj fs => env.newDateOfObject (.obj fs)
  | .arr es => env.newDateOfObject (.arr es)

/-! ## The `src/unnamed/part_003` normalizer -/

namespace Part3

/-- `safeStringify` from `src/unnamed/part_003` (lines 90–107):
`null`/`undefined` become `""`, strings pass through, numbers and booleans
go through `String(·)`, objects through `JSON.stringify` (the model has no
exceptions, so the `"[Complex Object]"` / `"[Invalid Data]"` catch arms are
unreachable). -/
def safeStringify (env : JsEnv) : JsValue → String
  | .null => ""
  | .undefined => ""
  | .str s => s
  | .num n => intDecimal n
  | .bool b => boolString b
  | .date m => env.stringify (.date m)
  | .obj fs => env.stringify (.obj fs)
  | .arr es => env.stringify (.arr es)

/-- `validateTimestamp` from `src/unnamed/part_003` (lines 61–87).  Falsy
values yield the current instant; a string that parses keeps its original
text; a number in range is rendered through `toISOString`; a valid `Date`
is rendered through `toISOString`; everything else yields the current
instant. -/
def validateTimestamp (env : JsEnv) (timestamp : JsValue) : String :=
  if truthy timestamp = false then nowISO env
  else
    match timestamp with
    | .str s =>
      match env.parseDateString s with
      | some _ => s
      | none => nowISO env
    | .num n =>
      match dateFromMillis n with
      | some t => env.toISO t
      | none => nowISO env
    | .date m =>
      match m with
      | some t => env.toISO t
      | none => nowISO env
    | _ => nowISO env

/-- The synthesized placeholder id
`` `temp-${Date.now()}-${Math.random().toString(36).substr(2, 9)}` ``. -/
def tempId (env : JsEnv) : String :=
  "temp-" ++ natDecimal env.nowMillis ++ "-" ++ env.randSuffix

/-- The `id` field of the safe trace (lines 43–46):
`typeof trace.id === "string" && trace.id.trim() ? trace.id.trim() : tempId`. -/
def normId (env : JsEnv) (trace : JsValue) : String :=
  match getProp trace "id" with
  | .str s => if jsTrim s ≠ "" then jsTrim s else tempId env
  | _ => tempId env

/-- Keys excluded by `extractSafeProperties`. -/
def excludeKeys : List String := ["id", "timestamp", "input", "output"]

/-- The per-value filter of `extractSafeProperties` (lines 118–131):
primitives pass through, plain non-array objects are shallow-copied (in the
pure model a shallow copy of an object is the object itself; the spread of
a `Date`, which has no own enumerable properties, yields an empty object),
`undefined`, `null` and arrays are dropped. -/
def extractOne : JsValue → Option JsValue
  | .undefined => none
  | .null => none
  | .str s => some (.str s)
  | .num n => some (.num n)
  | .bool b => some (.bool b)
  | .obj fs => some (.obj fs)
  | .date _ => some (.obj [])
  | .arr _ => none

/-- `extractSafeProperties` from `src/unnamed/part_003` (lines 110–143):
iterate the own enumerable keys of `trace`, skip the four canonical keys,
and keep values accepted by `extractOne`. -/
def extractSafeProperties (trace : JsValue) : List (String × JsValue) :=
  (ownKeys trace).filterMap fun k =>
    if k ∈ excludeKeys then none
    else (extractOne (getProp trace k)).map fun v => (k, v)

/-- The normalized trace record of `part_003`.  The object spread
`...extractSafeProperties(trace)` comes after the four canonical fields,
but `extractSafeProperties` never emits those keys, so the record splits
into the four fields plus the extra-property list. -/
structure TraceDetail where
  id : String
  timestamp : String
  input : String
  output : String
  extra : List (String × JsValue)

/-- `safeGetTraceData` from `src/unnamed/part_003` (lines 29–58): reject
falsy values, non-objects and arrays, then assemble the safe record.  The
model is exception-free, so the surrounding `try`/`catch` never fires. -/
def safeGetTraceData (env : JsEnv) (trace : JsValue) : Option TraceDetail :=
  if truthy trace = false || typeofIsObject trace = false then none
  else if isArray trace then none
  else
    some
      { id := normId env trace
        timestamp := validateTimestamp env (getProp trace "timestamp")
        input := safeStringify env (getProp trace "input")
        output := safeStringify env (getProp trace "output")
        extra := extractSafeProperties trace }

end Part3

/-! ## The `custom-trace-table.tsx` normalizer -/

namespace Web

/-- `safeStringify` from `custom-trace-table.tsx` (lines 79–88): like the
`part_003` variant but objects go through `JSON.stringify(value, null, 2)`. -/
def safeStringify (env : JsEnv) : JsValue → String
  | .null => ""
  | .undefined => ""
  | .str s => s
  | .num n => intDecimal n
  | .bool b => boolString b
  | .date m => env.stringifyPretty (.date m)
  | .obj fs => env.stringifyPretty (.obj fs)
  | .arr es => env.stringifyPretty (.arr es)

/-- `validateTimestamp` from `custom-trace-table.tsx` (lines 60–77): like
the `part_003` variant except that a parseable string is re-rendered
through `toISOString` instead of being kept verbatim. -/
def validateTimestamp (env : JsEnv) (timestamp : JsValue) : String :=
  if truthy timestamp = false then nowISO env
  else
    match timestamp with
    | .str s =>
      match env.parseDateString s with
      | some t => env.toISO t
      | none => nowISO env
    | .num n =>
      match dateFromMillis n with
      | some t => env.toISO t
      | none => nowISO env
    | .date m =>
      match m with
      | some t => env.toISO t
      | none => nowISO env
    | _ => nowISO env

/-- Upsert into a property list: JavaScript assignment replaces the value
of an existing key in place and appends a fresh key. -/
def setProp : List (String × JsValue) → String → JsValue → List (String × JsValue)
  | [], k, v => [(k, v)]
  | (k', v') :: rest, k, v =>
    if k' = k then (k, v) :: rest else (k', v') :: setProp rest k v

/-- An object literal ending in a spread, `{ …base, ...v }`: the own
enumerable properties of `v` overwrite the base entries. -/
def spreadOnto (base : List (String × JsValue)) (v : JsValue) : List (String × JsValue) :=
  (ownKeys v).foldl (fun acc k => setProp acc k (getProp v k)) base

/-- The score sanitizer of `safeGetTraceData` (lines 118–125).  The spread
`...score` comes last, so original properties overwrite the sanitized
defaults. -/
def mapScore (env : JsEnv) (score : JsValue) : JsValue :=
  .obj
    (spreadOnto
      [("id", jsOr (getProp score "id") (.str "")),
       ("timestamp", .str (validateTimestamp env (getProp score "timestamp"))),
       ("name", jsOr (getProp score "name") (.str "")),
       ("value",
        match getProp score "value" with
        | .num n => .num n
        | _ => .num 0),
       ("comment", jsOr (getProp score "comment") (.str ""))]
      score)

/-- The observation sanitizer of `safeGetTraceData` (lines 128–135); again
the trailing spread `...obs` overwrites the defaults. -/
def mapObservation (env : JsEnv) (obs : JsValue) : JsValue :=
  .obj
    (spreadOnto
      [("id", jsOr (getProp obs "id") (.str "")),
       ("type", jsOr (getProp obs "type") (.str "")),
       ("name", jsOr (getProp obs "name") (.str "")),
       ("startTime", .str (validateTimestamp env (getProp obs "startTime"))),
       ("endTime", .str (validateTimestamp env (getProp obs "endTime")))]
      obs)

/-- The `id` field (line 100):
`typeof traceData.id === 'string' ? traceData.id : temp-${Date.now()}` —
no trimming, no emptiness check and no random component, unlike `part_003`. -/
def webId (env : JsEnv) (td : JsValue) : String :=
  match getProp td "id" with
  | .str s => s
  | _ => "temp-" ++ natDecimal env.nowMillis

/-- The `metadata` field (lines 112–114). -/
def webMetadata (env : JsEnv) (td : JsValue) : String :=
  match getProp td "metadata" with
  | .str s => s
  | v => env.stringifyPretty (jsOr v (.obj []))

/-- `x ? new Date(x) : new Date()` used for `createdAt`/`updatedAt`
(lines 115–116). -/
def webDateOf (env : JsEnv) (v : JsValue) : Option Int :=
  if truthy v then jsNewDate env v else some (Int.ofNat env.nowMillis)

/-- The eighteen declared entries of the `safeTrace` object literal
(lines 99–138), in source order. -/
def baseTrace (env : JsEnv) (td : JsValue) : List (String × JsValue) :=
  [("id", .str (webId env td)),
   ("timestamp", .str (validateTimestamp env (getProp td "timestamp"))),
   ("input", .str (safeStringify env (getProp td "input"))),
   ("output", .str (safeStringify env (getProp td "output"))),
   ("projectId", jsOr (getProp td "projectId") (.str "")),
   ("name", jsOr (getProp td "name") (.str "")),
   ("environment", jsOr (getProp td "environment") (.str "default")),
   ("tags",
    match getProp td "tags" with
    | .arr es => .arr es
    | _ => .arr []),
   ("bookmarked", .bool (truthy (getProp td "bookmarked"))),
   ("userId", jsOr (getProp td "userId") (.str "")),
   ("sessionId", jsOr (getProp td "sessionId") (.str "")),
   ("public", .bool (truthy (getProp td "public"))),
   ("metadata", .str (webMetadata env td)),
   ("createdAt", .date (webDateOf env (getProp td "createdAt"))),
   ("updatedAt", .date (webDateOf env (getProp td "updatedAt"))),
   ("scores",
    match getProp td "scores" with
    | .arr es => .arr (es.map (mapScore env))
    | _ => .arr []),
   ("observations",
    match getProp td "observations" with
    | .arr es => .arr (es.map (mapObservation env))
    | _ => .arr []),
   ("latency",
    match getProp td "latency" with
    | .num n => .num n
    | _ => .num 0)]

/-- The `safeTrace` after the property-preserving loop (lines 141–149):
every own enumerable key of `traceData` that `safeTrace` does not already
have is copied through **verbatim** — whatever its type, arrays included. -/
def buildSafeTrace (env : JsEnv) (td : JsValue) : List (String × JsValue) :=
  (ownKeys td).foldl
    (fun acc k =>
      if (acc.lookup k).isSome then acc else acc ++ [(k, getProp td k)])
    (baseTrace env td)

/-- `safeGetTraceData` from `custom-trace-table.tsx` (lines 90–156): the
same guard as `part_003`, then the unwrap
`const traceData = rawTrace.trace || rawTrace`, then the safe record,
returned wrapped as `{ trace: safeTrace }`. -/
def safeGetTraceData (env : JsEnv) (rawTrace : JsValue) : Option JsValue :=
  if truthy rawTrace = false || typeofIsObject rawTrace = false
      || isArray rawTrace then
    none
  else
    let traceData := jsOr (getProp rawTrace "trace") rawTrace
    some (.obj [("trace", .obj (buildSafeTrace env traceData))])

end Web

/-! ## Per-fetch retry policy of `TracesTable` -/

/-- The retry predicate passed by `TracesTable` to the query transport
(`custom-trace-table.tsx` lines 187–195 / `part_003` lines 182–190): never
retry `UNAUTHORIZED` or `NOT_FOUND`, otherwise retry while
`failureCount < 3`.  `errCode` models `error.data?.code` (`none` when
`data` is absent). -/
def retryDecision (failureCount : Nat) (errCode : Option String) : Bool :=
  if errCode = some "UNAUTHORIZED" || errCode = some "NOT_FOUND" then false
  else failureCount < 3

/-- Modelled from the spec: the retry loop itself lives in the query
collaborator (the `useQuery` transport), whose code is not under `src/`;
§4.2 specifies that after each failed fetch the transport consults the
component's retry predicate with the number of failures so far and, when it
answers `false`, the candidate is permanently failed.  `transport k` is the
outcome of attempt `k + 1`; `k` counts attempts already made; `fuel`
bounds the loop.  Returns the final outcome and the total number of
attempts issued. -/
def runFetchAttempts (retry : Nat → Option String → Bool)
    (transport : Nat → Except (Option String) JsValue) :
    Nat → Nat → Except (Option String) JsValue × Nat
  | fuel, k =>
    match transport k with
    | .ok a => (.ok a, k + 1)
    | .error e =>
      match fuel with
      | 0 => (.error e, k + 1)
      | fuel' + 1 =>
        if retry (k + 1) e then runFetchAttempts retry transport fuel' (k + 1)
        else (.error e, k + 1)

/-! ## The evaluation-session coordinator (`src/unnamed/part_001`) -/

/-- A part of a multipart form body: a plain field or an attached file. -/
inductive FormPart where
  | field (fieldName value : String)
  | file (fieldName content fileName : String)

/-- The body of an outgoing request. -/
inductive RequestBody where
  | multipart (parts : List FormPart)
  | jsonBody (s : String)

/-- An HTTP request issued through `fetch`. -/
structure Request where
  url : String
  method : String
  body : RequestBody

/-- Responses of the scoring service, parametric in the decoded JSON
payload.  The `as ValidationResponse` / `as EvaluationResult` casts in the
source perform no runtime checking, so the decoded payload is modelled
already typed (§6 of the spec documents the shapes). -/
structure HttpResp (α : Type) where
  ok : Bool
  status : Nat
  bodyText : String
  json : α

/-- The scoring service's preview response
(`ValidationResponse` in `part_001`, lines 39–43). -/
structure ValidationResponse where
  session_id : String
  filled_prompt_preview : String
  message : String

/-- The state of one `AutoXEvalForm` instance (`part_001`, lines 46–54);
`id` (the evaluation kind) is a component prop, kept outside. -/
structure FormState where
  selectedTrace : Option JsValue
  selectedItems : List String
  prompt : String
  uploadedJson : Option (List (String × JsValue))
  isLoading : Bool
  isValidating : Bool
  result : Option JsValue
  error : Option String
  validationData : Option ValidationResponse

/-- Preview-endpoint selection (`part_001`, lines 152–156): the quality
kind maps to `process_and_preview_quality`, **everything else** — the
performance kind, but also any unknown kind — to
`process_and_preview_performance`. -/
def previewEndpoint (id : Option String) : String :=
  if id = some "autox-agent-quality" then
    "http://10.0.0.141:8000/process_and_preview_quality"
  else
    "http://10.0.0.141:8000/process_and_preview_performance"

/-- Execute-endpoint selection (`part_001`, lines 222–226), same shape. -/
def executeEndpoint (id : Option String) : String :=
  if id = some "autox-agent-quality" then
    "http://10.0.0.141:8000/evaluate_quality"
  else
    "http://10.0.0.141:8000/evaluate_performance"

/-- `uploadedJson.fileName || "default_trace.json"` (line 181);
`fileName` is typed `string | undefined`. -/
def uploadedFileName (uj : List (String × JsValue)) : String :=
  match getProp (.obj uj) "fileName" with
  | .str s => if s ≠ "" then s else "default_trace.json"
  | _ => "default_trace.json"

/-- The two fields appended to the form body for every evaluation kind
(lines 159–162): the template and the JSON-encoded selected-variable list. -/
def basePreviewParts (env : JsEnv) (st : FormState) : List FormPart :=
  [FormPart.field "prompt_template" st.prompt,
   FormPart.field "selected_vars"
     (env.stringify (.arr (st.selectedItems.map JsValue.str)))]

/-- The preview request of the quality kind (lines 171–181): current trace
and uploaded default trace attached as JSON files. -/
def qualityPreviewRequest (env : JsEnv) (st : FormState) (tr : JsValue)
    (uj : List (String × JsValue)) : Request :=
  { url := previewEndpoint (some "autox-agent-quality")
    method := "POST"
    body :=
      .multipart
        (basePreviewParts env st ++
          [FormPart.file "current_trace_file" (env.stringify tr)
            "current_trace.json",
           FormPart.file "default_trace_file" (env.stringify (.obj uj))
            (uploadedFileName uj)]) }

/-- The preview request of every non-quality kind (lines 183–189): the
trace file plus a duplicate `selected_variables` field. -/
def performancePreviewRequest (env : JsEnv) (id : Option String)
    (st : FormState) (tr : JsValue) : Request :=
  { url := previewEndpoint id
    method := "POST"
    body :=
      .multipart
        (basePreviewParts env st ++
          [FormPart.file "trace_file" (env.stringify tr) "trace.json",
           FormPart.field "selected_variables"
            (env.stringify (.arr (st.selectedItems.map JsValue.str)))]) }

/-- The execute request (lines 228–236): JSON body `{ session_id }` only —
no trace or prompt data is re-sent. -/
def executeRequest (env : JsEnv) (id : Option String)
    (vd : ValidationResponse) : Request :=
  { url := executeEndpoint id
    method := "POST"
    body :=
      .jsonBody (env.stringify (.obj [("session_id", .str vd.session_id)])) }

/-- The `fetch`/response half of `validateEvaluation` (lines 191–209),
including the `catch` and the `finally { setIsValidating(false) }`. -/
def validateFetch
    (transport : Request → Except String (HttpResp ValidationResponse))
    (st1 : FormState) (req : Request) : FormState × List Request :=
  match transport req with
  | .error msg =>
    ({ st1 with
        error :=
          some ("There was an error validating the evaluation: " ++ msg)
        isValidating := false },
     [req])
  | .ok resp =>
    if resp.ok = false then
      ({ st1 with
          error :=
            some
              ("There was an error validating the evaluation: HTTP error! status: "
                ++ natDecimal resp.status ++ ", message: " ++ resp.bodyText)
          isValidating := false },
       [req])
    else
      ({ st1 with
          validationData := some resp.json
          prompt := resp.json.filled_prompt_preview
          isValidating := false },
       [req])

/-- `validateEvaluation` from `part_001` (lines 130–210), as a pure state
transformer.  `transport` stands for `fetch`: `Except.error msg` is a
transport-level rejection whose `Error` carries `msg`.  Returns the new
state together with the list of requests issued. -/
def validateEvaluation (env : JsEnv) (id : Option String)
    (transport : Request → Except String (HttpResp ValidationResponse))
    (st : FormState) : FormState × List Request :=
  if jsTrim st.prompt = "" then
    ({ st with error := some "Please enter a prompt for the evaluation" }, [])
  else
    match st.selectedTrace with
    | none =>
      ({ st with error := some "Please select a trace to evaluate" }, [])
    | some tr =>
      if st.selectedItems.length = 0 then
        ({ st with error := some "Please select at least one item to evaluate" },
         [])
      else
        -- setIsValidating(true); setError(null)
        let st1 := { st with isValidating := true, error := none }
        if id = some "autox-agent-quality" then
          match st1.uploadedJson with
          | none =>
            ({ st1 with
                error :=
                  some "Please upload a default trace file for quality evaluation"
                isValidating := false },
             [])
          | some uj =>
            validateFetch transport st1 (qualityPreviewRequest env st tr uj)
        else
          validateFetch transport st1 (performancePreviewRequest env id st tr)

/-- `executeEvaluation` from `part_001` (lines 212–251), as a pure state
transformer returning the new state and the requests issued. -/
def executeEvaluation (env : JsEnv) (id : Option String)
    (transport : Request → Except String (HttpResp JsValue))
    (st : FormState) : FormState × List Request :=
  match st.validationData with
  | none =>
    ({ st with error := some "Please validate first before executing" }, [])
  | some vd =>
    -- setIsLoading(true); setError(null)
    let st1 := { st with isLoading := true, error := none }
    let req := executeRequest env id vd
    match transport req with
    | .error msg =>
      ({ st1 with
          error := some ("There was an error executing the evaluation: " ++ msg)
          isLoading := false },
       [req])
    | .ok resp =>
      if resp.ok = false then
        ({ st1 with
            error :=
              some
                ("There was an error executing the evaluation: HTTP error! status: "
                  ++ natDecimal resp.status ++ ", message: " ++ resp.bodyText)
            isLoading := false },
         [req])
      else
        ({ st1 with result := some resp.json, isLoading := false }, [req])

/-! ## Statement helpers and concrete sample data -/

/-- Digit value, left inverse of `digitChar` on `d < 10`. -/
def digitVal : Char → Nat
  | '0' => 0 | '1' => 1 | '2' => 2 | '3' => 3 | '4' => 4
  | '5' => 5 | '6' => 6 | '7' => 7 | '8' => 8 | '9' => 9
  | _ => 0

/-- Decimal decoding of a digit list, left inverse of `natDecimalAux`. -/
def decodeDec (cs : List Char) : Nat :=
  cs.foldl (fun a c => a * 10 + digitVal c) 0

/-- Reads field `k` of the normalized record `{ trace: … }` returned by
`Web.safeGetTraceData`. -/
def webResultProp (r : Option JsValue) (k : String) : JsValue :=
  match r with
  | some (.obj [("trace", t)]) => getProp t k
  | _ => .undefined

/-- The eighteen property keys declared by the `safeTrace` object literal
of `custom-trace-table.tsx`. -/
def webDeclaredKeys : List String :=
  ["id", "timestamp", "input", "output", "projectId", "name", "environment",
   "tags", "bookmarked", "userId", "sessionId", "public", "metadata",
   "createdAt", "updatedAt", "scores", "observations", "latency"]

/-- A concrete executable environment used by the witness theorems: no
string parses as a date, `toISOString` renders the epoch offset,
`JSON.stringify` is a constant. -/
def sampleEnv : JsEnv :=
  { nowMillis := 1000
    randSuffix := "abc123xyz"
    parseDateString := fun _ => none
    toISO := fun t => "ISO:" ++ intDecimal t
    stringify := fun _ => "/json/"
    stringifyPretty := fun _ => "/json2/"
    newDateOfObject := fun _ => none }

/-- The initial state of the evaluation form: nothing selected, nothing
validated. -/
def sampleIdleState : FormState :=
  { selectedTrace := none
    selectedItems := []
    prompt := ""
    uploadedJson := none
    isLoading := false
    isValidating := false
    result := none
    error := none
    validationData := none }

/-- A state satisfying the three unconditional preconditions of
`validateEvaluation` but holding no uploaded reference file. -/
def sampleReadyState : FormState :=
  { sampleIdleState with
      prompt := "Rate the agent"
      selectedTrace := some (.obj [])
      selectedItems := ["input"] }

/-- `sampleReadyState` after a successful validation. -/
def sampleValidatedState : FormState :=
  { sampleReadyState with
      validationData :=
        some { session_id := "s1", filled_prompt_preview := "fp", message := "ok" } }

/-- A preview transport whose every call rejects at the network level. -/
def sampleDownTransport : Request → Except String (HttpResp ValidationResponse) :=
  fun _ => .error "network down"

/-- An execute transport answering 500 on every call. -/
def sampleFailExecTransport : Request → Except String (HttpResp JsValue) :=
  fun _ => .ok { ok := false, status := 500, bodyText := "boom", json := .null }

/-- An execute transport answering 200 with a string result on every call. -/
def sampleOkExecTransport : Request → Except String (HttpResp JsValue) :=
  fun _ => .ok { ok := true, status := 200, bodyText := "", json := .str "PASS" }

/-- A detail-fetch transport failing every attempt with an `Other` error. -/
def sampleOtherFailFetch : Nat → Except (Option String) JsValue :=
  fun _ => .error (some "INTERNAL_SERVER_ERROR")

/-- A detail-fetch transport failing every attempt with `UNAUTHORIZED`. -/
def sampleUnauthorizedFetch : Nat → Except (Option String) JsValue :=
  fun _ => .error (some "UNAUTHORIZED")

/-- A detail-fetch transport that fails twice with an `Other` error and
succeeds on the third attempt — the §8 scenario of the spec. -/
def sampleThirdTrySucceeds : Nat → Except (Option String) JsValue :=
  fun k => if k < 2 then .error (some "TIMEOUT") else .ok (.str "detail")

end AgentXTracker

/-! ## Helper lemmas: decimal strings and placeholder ids -/

namespace AgentXTracker

theorem digitVal_digitChar (d : Nat) (h : d < 10) :
    digitVal (digitChar d) = d := by
  interval_cases d <;> rfl

theorem digitChar_ne_dash (d : Nat) : digitChar d ≠ '-' := by
  unfold digitChar
  split <;> decide

theorem decodeDec_append_digit (l : List Char) (c : Char) :
    decodeDec (l ++ [c]) = decodeDec l * 10 + digitVal c := by
  simp [decodeDec, List.foldl_append]

theorem decodeDec_natDecimalAux :
    ∀ fuel n, n < fuel → decodeDec (natDecimalAux fuel n) = n := by
  intro fuel
  induction fuel with
  | zero => intro n h; omega
  | succ fuel ih =>
    intro n h
    unfold natDecimalAux
    by_cases h10 : n < 10
    · simp only [h10, if_pos]
      simp [decodeDec, digitVal_digitChar n h10]
    · simp only [h10, if_neg, if_false]
      rw [decodeDec_append_digit]
      have hdiv : n / 10 < fuel := by
        have := Nat.div_lt_self (by omega : 0 < n) (by norm_num : 1 < 10)
        omega
      rw [ih (n / 10) hdiv, digitVal_digitChar (n % 10) (Nat.mod_lt n (by norm_num))]
      omega

theorem natDecimal_injective (m n : Nat) (h : natDecimal m = natDecimal n) :
    m = n := by
  have hd : natDecimalAux (m + 1) m = natDecimalAux (n + 1) n :=
    congrArg String.data h
  have hm := decodeDec_natDecimalAux (m + 1) m (by omega)
  have hn := decodeDec_natDecimalAux (n + 1) n (by omega)
  rw [← hm, ← hn, hd]

theorem dash_not_mem_natDecimalAux :
    ∀ fuel n, '-' ∉ natDecimalAux fuel n := by
  intro fuel
  induction fuel with
  | zero => intro n; simp [natDecimalAux]
  | succ fuel ih =>
    intro n
    unfold natDecimalAux
    by_cases h10 : n < 10
    · simp [h10, digitChar_ne_dash n]
      intro hcontra
      exact digitChar_ne_dash n hcontra.symm
    · simp [h10, List.mem_append]
      refine ⟨fun hmem => ih (n / 10) hmem, ?_⟩
      intro hcontra
      exact digitChar_ne_dash (n % 10) hcontra.symm

theorem strData_append (s t : String) : (s ++ t).data = s.data ++ t.data := rfl

theorem strData_inj {s t : String} (h : s.data = t.data) : s = t := by
  cases s; cases t; exact congrArg String.mk h

theorem append_dash_inj :
    ∀ (l₁ l₂ r₁ r₂ : List Char),
      l₁ ++ '-' :: r₁ = l₂ ++ '-' :: r₂ → '-' ∉ l₁ → '-' ∉ l₂ →
      l₁ = l₂ ∧ r₁ = r₂ := by
  intro l₁
  induction l₁ with
  | nil =>
    intro l₂ r₁ r₂ h _ h2
    cases l₂ with
    | nil => simpa using h
    | cons c t =>
      simp only [List.nil_append, List.cons_append, List.cons.injEq] at h
      exact absurd (h.1 ▸ List.mem_cons_self c t) h2
  | cons c t ih =>
    intro l₂ r₁ r₂ h h1 h2
    cases l₂ with
    | nil =>
      simp only [List.nil_append, List.cons_append, List.cons.injEq] at h
      exact absurd (h.1.symm ▸ List.mem_cons_self c t) h1
    | cons c' t' =>
      simp only [List.cons_append, List.cons.injEq] at h
      have ht := ih t' r₁ r₂ h.2 (fun hm => h1 (List.mem_cons_of_mem c hm))
        (fun hm => h2 (List.mem_cons_of_mem c' hm))
      exact ⟨by rw [h.1, ht.1], ht.2⟩

theorem tempId_inj (e₁ e₂ : JsEnv)
    (h : Part3.tempId e₁ = Part3.tempId e₂) :
    e₁.nowMillis = e₂.nowMillis ∧ e₁.randSuffix = e₂.randSuffix := by
  have hd := congrArg String.data h
  simp only [Part3.tempId, strData_append, List.append_assoc] at hd
  have hd' := List.append_cancel_left hd
  simp only [List.singleton_append] at hd'
  have hsplit := append_dash_inj _ _ _ _ hd'
    (dash_not_mem_natDecimalAux (e₁.nowMillis + 1) e₁.nowMillis)
    (dash_not_mem_natDecimalAux (e₂.nowMillis + 1) e₂.nowMillis)
  exact ⟨natDecimal_injective _ _ (strData_inj hsplit.1), strData_inj hsplit.2⟩

end AgentXTracker

/-! ## Helper lemmas: association-list lookup and the property-copy loop -/

namespace AgentXTracker

theorem lookup_cons_pos (k k' : String) (v' : JsValue) (t : List (String × JsValue))
    (hk : (k == k') = true) : List.lookup k ((k', v') :: t) = some v' := by
  simp [List.lookup, hk]

theorem lookup_cons_neg (k k' : String) (v' : JsValue) (t : List (String × JsValue))
    (hk : (k == k') = false) : List.lookup k ((k', v') :: t) = List.lookup k t := by
  simp [List.lookup, hk]

theorem lookup_append_of_isSome (l₁ l₂ : List (String × JsValue)) (k : String)
    (h : (List.lookup k l₁).isSome) :
    List.lookup k (l₁ ++ l₂) = List.lookup k l₁ := by
  induction l₁ with
  | nil => simp [List.lookup] at h
  | cons p t ih =>
    obtain ⟨k', v'⟩ := p
    rw [List.cons_append]
    by_cases hk : (k == k') = true
    · rw [lookup_cons_pos k k' v' (t ++ l₂) hk, lookup_cons_pos k k' v' t hk]
    · have hk' : (k == k') = false := by simpa using hk
      rw [lookup_cons_neg k k' v' (t ++ l₂) hk', lookup_cons_neg k k' v' t hk']
      rw [lookup_cons_neg k k' v' t hk'] at h
      exact ih h

theorem lookup_append_of_none (l₁ l₂ : List (String × JsValue)) (k : String)
    (h : List.lookup k l₁ = none) :
    List.lookup k (l₁ ++ l₂) = List.lookup k l₂ := by
  induction l₁ with
  | nil => simp
  | cons p t ih =>
    obtain ⟨k', v'⟩ := p
    rw [List.cons_append]
    by_cases hk : (k == k') = true
    · rw [lookup_cons_pos k k' v' t hk] at h
      exact absurd h (by simp)
    · have hk' : (k == k') = false := by simpa using hk
      rw [lookup_cons_neg k k' v' t hk'] at h
      rw [lookup_cons_neg k k' v' (t ++ l₂) hk']
      exact ih h

theorem lookup_eq_none_of_not_mem (l : List (String × JsValue)) (k : String)
    (h : k ∉ l.map Prod.fst) : List.lookup k l = none := by
  induction l with
  | nil => rfl
  | cons p t ih =>
    obtain ⟨k', v'⟩ := p
    simp only [List.map_cons, List.mem_cons] at h
    push_neg at h
    have hk' : (k == k') = false := by simp [h.1]
    rw [lookup_cons_neg k k' v' t hk']
    exact ih h.2

theorem copyLoop_lookup (td : JsValue) (k : String) :
    ∀ (ks : List String) (acc : List (String × JsValue)),
      ((List.lookup k acc).isSome →
        List.lookup k
          (ks.foldl
            (fun acc k' =>
              if (acc.lookup k').isSome then acc else acc ++ [(k', getProp td k')])
            acc)
          = List.lookup k acc) ∧
      (List.lookup k acc = none → k ∈ ks →
        List.lookup k
          (ks.foldl
            (fun acc k' =>
              if (acc.lookup k').isSome then acc else acc ++ [(k', getProp td k')])
            acc)
          = some (getProp td k)) := by
  intro ks
  induction ks with
  | nil =>
    intro acc
    exact ⟨fun _ => rfl, fun _ h => absurd h (List.not_mem_nil k)⟩
  | cons k' ks ih =>
    intro acc
    have hstepEq : ∀ acc' : List (String × JsValue),
        acc' = (if (List.lookup k' acc).isSome then acc
          else acc ++ [(k', getProp td k')]) →
        ((List.lookup k acc).isSome → List.lookup k acc' = List.lookup k acc) ∧
        (List.lookup k acc = none → k ≠ k' → List.lookup k acc' = none) ∧
        (List.lookup k acc = none → k = k' →
          List.lookup k acc' = some (getProp td k)) := by
      intro acc' hdef
      by_cases hb : (List.lookup k' acc).isSome
      · rw [if_pos hb] at hdef
        subst hdef
        refine ⟨fun _ => rfl, fun h _ => h, fun hnone hkk => ?_⟩
        subst hkk
        rw [hnone] at hb
        simp at hb
      · rw [if_neg hb] at hdef
        subst hdef
        refine ⟨fun hsome => lookup_append_of_isSome _ _ _ hsome, ?_, ?_⟩
        · intro hnone hkk
          rw [lookup_append_of_none _ _ _ hnone]
          have : (k == k') = false := by simp [hkk]
          rw [lookup_cons_neg k k' _ [] this]
          rfl
        · intro hnone hkk
          subst hkk
          rw [lookup_append_of_none _ _ _ hnone]
          exact lookup_cons_pos k k _ [] (by simp)
    have hs := hstepEq _ rfl
    constructor
    · intro hsome
      simp only [List.foldl_cons]
      rw [(ih _).1 (by rw [hs.1 hsome]; exact hsome), hs.1 hsome]
    · intro hnone hmem
      simp only [List.foldl_cons]
      by_cases hkk : k = k'
      · have h2 := hs.2.2 hnone hkk
        rw [(ih _).1 (by rw [h2]; rfl), h2]
      · have hmem' : k ∈ ks := by
          rcases List.mem_cons.mp hmem with h | h
          · exact absurd h hkk
          · exact h
        exact (ih _).2 (hs.2.1 hnone hkk) hmem'

end AgentXTracker

/-! ## Helper lemmas: evaluating the two normalizers -/

namespace AgentXTracker

theorem buildSafeTrace_lookup_base (env : JsEnv) (td : JsValue) (k : String)
    (h : (List.lookup k (Web.baseTrace env td)).isSome) :
    List.lookup k (Web.buildSafeTrace env td)
      = List.lookup k (Web.baseTrace env td) := by
  unfold Web.buildSafeTrace
  exact (copyLoop_lookup td k (ownKeys td) (Web.baseTrace env td)).1 h

theorem buildSafeTrace_lookup_extra (env : JsEnv) (td : JsValue) (k : String)
    (hbase : List.lookup k (Web.baseTrace env td) = none) (hk : k ∈ ownKeys td) :
    List.lookup k (Web.buildSafeTrace env td) = some (getProp td k) := by
  unfold Web.buildSafeTrace
  exact (copyLoop_lookup td k (ownKeys td) (Web.baseTrace env td)).2 hbase hk

theorem webResultProp_eval (env : JsEnv) (fields : List (String × JsValue)) (k : String)
    (htr : truthy (getProp (.obj fields) "trace") = false) :
    webResultProp (Web.safeGetTraceData env (.obj fields)) k
      = getProp (.obj (Web.buildSafeTrace env (.obj fields))) k := by
  have ht : truthy (JsValue.obj fields) = true := rfl
  have ho : typeofIsObject (JsValue.obj fields) = true := rfl
  have ha : isArray (JsValue.obj fields) = false := rfl
  simp [Web.safeGetTraceData, ht, ho, ha, jsOr, htr, webResultProp]

theorem baseTrace_lookup_id (env : JsEnv) (td : JsValue) :
    List.lookup "id" (Web.baseTrace env td) = some (.str (Web.webId env td)) := by
  simp [Web.baseTrace, List.lookup]

theorem getProp_obj (l : List (String × JsValue)) (k : String) :
    getProp (.obj l) k = match List.lookup k l with
      | some v => v
      | none => .undefined := rfl

theorem webResultProp_id (env : JsEnv) (fields : List (String × JsValue))
    (htr : truthy (getProp (.obj fields) "trace") = false) :
    webResultProp (Web.safeGetTraceData env (.obj fields)) "id"
      = .str (Web.webId env (.obj fields)) := by
  rw [webResultProp_eval env fields "id" htr, getProp_obj,
    buildSafeTrace_lookup_base env (.obj fields) "id"
      (by rw [baseTrace_lookup_id]; rfl),
    baseTrace_lookup_id]

theorem part3_id_eval (env : JsEnv) (fields : List (String × JsValue)) :
    (Part3.safeGetTraceData env (.obj fields)).map Part3.TraceDetail.id
      = some (Part3.normId env (.obj fields)) := by
  have ht : truthy (JsValue.obj fields) = true := rfl
  have ho : typeofIsObject (JsValue.obj fields) = true := rfl
  have ha : isArray (JsValue.obj fields) = false := rfl
  simp [Part3.safeGetTraceData, ht, ho, ha]

theorem mem_extractSafeProperties (trace : JsValue) (k : String) (v : JsValue)
    (h : (k, v) ∈ Part3.extractSafeProperties trace) :
    k ∉ Part3.excludeKeys ∧ Part3.extractOne (getProp trace k) = some v := by
  unfold Part3.extractSafeProperties at h
  rw [List.mem_filterMap] at h
  obtain ⟨k', _, hf⟩ := h
  by_cases hex : k' ∈ Part3.excludeKeys
  · simp [hex] at hf
  · simp only [hex, if_neg, if_false, Option.map_eq_some'] at hf
    obtain ⟨w, hw, heq⟩ := hf
    injection heq with hk hv
    subst hk
    subst hv
    exact ⟨hex, hw⟩

theorem extractOne_not_array (x v : JsValue) (h : Part3.extractOne x = some v) :
    isArray v = false := by
  cases x <;> simp [Part3.extractOne] at h <;> subst h <;> rfl

end AgentXTracker

/-! ## Helper lemmas: coordinator and retry driver -/

namespace AgentXTracker

theorem validateFetch_requests
    (transport : Request → Except String (HttpResp ValidationResponse))
    (st1 : FormState) (req : Request) :
    (validateFetch transport st1 req).2 = [req] := by
  unfold validateFetch
  cases transport req with
  | error msg => rfl
  | ok resp => by_cases h : resp.ok = false <;> simp [h]

theorem validateEvaluation_request_urls (env : JsEnv) (id : Option String)
    (transport : Request → Except String (HttpResp ValidationResponse))
    (st : FormState) (tr : JsValue)
    (h1 : jsTrim st.prompt ≠ "") (hT : st.selectedTrace = some tr)
    (h2 : st.selectedItems ≠ [])
    (hq : id = some "autox-agent-quality" → st.uploadedJson ≠ none) :
    (validateEvaluation env id transport st).2.map Request.url
      = [previewEndpoint id] := by
  unfold validateEvaluation
  rw [hT]
  simp only [h1, if_false]
  have h2' : ¬ st.selectedItems.length = 0 := by
    simpa [List.length_eq_zero] using h2
  simp only [h2', if_false]
  by_cases hk : id = some "autox-agent-quality"
  · simp only [hk, if_pos rfl]
    cases hu : st.uploadedJson with
    | none => exact absurd hu (hq hk)
    | some uj =>
      simp [validateFetch_requests, qualityPreviewRequest, hk]
  · simp [hk, validateFetch_requests, performancePreviewRequest]

theorem executeEvaluation_ok_result (env : JsEnv) (id : Option String)
    (t2 : Request → Except String (HttpResp JsValue))
    (resp₂ : HttpResp JsValue) (st' : FormState) (vd : ValidationResponse)
    (hv' : st'.validationData = some vd)
    (ht2 : ∀ r, t2 r = .ok resp₂) (hok2 : resp₂.ok = true) :
    (executeEvaluation env id t2 st').1.result = some resp₂.json ∧
    (executeEvaluation env id t2 st').2 ≠ [] := by
  unfold executeEvaluation
  rw [hv']
  simp [ht2, hok2]

theorem executeEvaluation_fail_state (env : JsEnv) (id : Option String)
    (transport : Request → Except String (HttpResp JsValue))
    (st : FormState) (vd : ValidationResponse)
    (hv : st.validationData = some vd)
    (hfail : (∃ msg, transport (executeRequest env id vd) = .error msg) ∨
      (∃ resp, transport (executeRequest env id vd) = .ok resp ∧ resp.ok = false)) :
    (executeEvaluation env id transport st).1.validationData = some vd ∧
    (executeEvaluation env id transport st).1.prompt = st.prompt ∧
    ((executeEvaluation env id transport st).1.error).isSome = true ∧
    (executeEvaluation env id transport st).1.result = st.result := by
  unfold executeEvaluation
  rw [hv]
  rcases hfail with ⟨msg, hm⟩ | ⟨resp, hr, hok⟩
  · simp [hm]
  · simp [hr, hok]

theorem retryDecision_true_lt (k : Nat) (e : Option String)
    (h : retryDecision k e = true) : k < 3 := by
  unfold retryDecision at h
  by_cases hc : (e = some "UNAUTHORIZED" || e = some "NOT_FOUND") = true
  · simp [hc] at h
  · simp [Bool.not_eq_true] at hc
    simp [hc.1, hc.2, decide_eq_true_eq] at h
    exact h

theorem runFetchAttempts_le (transport : Nat → Except (Option String) JsValue) :
    ∀ (fuel k : Nat), k < 3 →
      (runFetchAttempts retryDecision transport fuel k).2 ≤ 3 := by
  intro fuel
  induction fuel with
  | zero =>
    intro k hk
    unfold runFetchAttempts
    cases transport k <;> (simp; omega)
  | succ fuel ih =>
    intro k hk
    unfold runFetchAttempts
    cases htk : transport k with
    | ok a => simp; omega
    | error e =>
      by_cases hr : retryDecision (k + 1) e = true
      · simpa [hr] using ih (k + 1) (retryDecision_true_lt (k + 1) e hr)
      · simp only [Bool.not_eq_true] at hr
        simp [hr]
        omega

end AgentXTracker

/-! ## Claim theorems -/

namespace AgentXTracker

/-- C1: for every input value, of any JavaScript type, both
`safeGetTraceData` normalizers terminate without throwing (they are total
functions of the embedding) and return either a well-typed normalized
record or `null`; they return a record exactly when the input is a truthy
non-array object, and hence `null` for `null`, `undefined`, primitives and
arrays. -/
theorem c1_normalizer_total_null_iff_not_object (env : JsEnv) (raw : JsValue) :
    (Part3.safeGetTraceData env raw).isSome = isNonArrayObject raw ∧
    (Web.safeGetTraceData env raw).isSome = isNonArrayObject raw := by
  constructor <;> cases raw <;>
    simp [Part3.safeGetTraceData, Web.safeGetTraceData, isNonArrayObject,
      truthy, typeofIsObject, isArray]

/-- C2: under the retry driver of the query collaborator (modelled from the
spec) and the retry predicate of `TracesTable`, a first failure classified
`UNAUTHORIZED` or `NOT_FOUND` is never retried (one attempt total); no
candidate is ever attempted more than 3 times; three consecutive
retryable failures leave the candidate permanently failed after exactly 3
attempts; and a fetch failing twice with a retryable error then succeeding
completes successfully on the 3rd attempt. -/
theorem c2_fetch_retry_policy
    (transport : Nat → Except (Option String) JsValue) (fuel : Nat) :
    (∀ e, transport 0 = .error e →
      (e = some "UNAUTHORIZED" ∨ e = some "NOT_FOUND") →
      runFetchAttempts retryDecision transport fuel 0 = (.error e, 1)) ∧
    (runFetchAttempts retryDecision transport fuel 0).2 ≤ 3 ∧
    (∀ e₀ e₁ e₂, 2 ≤ fuel →
      transport 0 = .error e₀ → transport 1 = .error e₁ → transport 2 = .error e₂ →
      e₀ ≠ some "UNAUTHORIZED" → e₀ ≠ some "NOT_FOUND" →
      e₁ ≠ some "UNAUTHORIZED" → e₁ ≠ some "NOT_FOUND" →
      runFetchAttempts retryDecision transport fuel 0 = (.error e₂, 3)) ∧
    (∀ a, 2 ≤ fuel →
      (∀ e₀, transport 0 = .error e₀ →
        e₀ ≠ some "UNAUTHORIZED" ∧ e₀ ≠ some "NOT_FOUND") →
      (∀ e₁, transport 1 = .error e₁ →
        e₁ ≠ some "UNAUTHORIZED" ∧ e₁ ≠ some "NOT_FOUND") →
      (∃ e₀, transport 0 = .error e₀) → (∃ e₁, transport 1 = .error e₁) →
      transport 2 = .ok a →
      runFetchAttempts retryDecision transport fuel 0 = (.ok a, 3)) := by
  refine ⟨?_, runFetchAttempts_le transport fuel 0 (by omega), ?_, ?_⟩
  · intro e h0 hcode
    unfold runFetchAttempts
    rw [h0]
    cases fuel with
    | zero => rfl
    | succ fuel' =>
      have : retryDecision 1 e = false := by
        rcases hcode with h | h <;> simp [retryDecision, h]
      simp [this]
  · intro e₀ e₁ e₂ hfuel h0 h1 h2 hu0 hn0 hu1 hn1
    obtain ⟨f, rfl⟩ : ∃ f, fuel = f + 2 := ⟨fuel - 2, by omega⟩
    have hr0 : retryDecision 1 e₀ = true := by simp [retryDecision, hu0, hn0]
    have hr1 : retryDecision 2 e₁ = true := by simp [retryDecision, hu1, hn1]
    unfold runFetchAttempts
    rw [h0]
    simp [hr0]
    unfold runFetchAttempts
    rw [h1]
    simp [hr1]
    unfold runFetchAttempts
    rw [h2]
    cases f <;> simp [retryDecision]
  · rintro a hfuel hc0 hc1 ⟨e₀, h0⟩ ⟨e₁, h1⟩ h2
    obtain ⟨f, rfl⟩ : ∃ f, fuel = f + 2 := ⟨fuel - 2, by omega⟩
    have hr0 : retryDecision 1 e₀ = true := by
      obtain ⟨hu, hn⟩ := hc0 e₀ h0
      simp [retryDecision, hu, hn]
    have hr1 : retryDecision 2 e₁ = true := by
      obtain ⟨hu, hn⟩ := hc1 e₁ h1
      simp [retryDecision, hu, hn]
    unfold runFetchAttempts
    rw [h0]
    simp [hr0]
    unfold runFetchAttempts
    rw [h1]
    simp [hr1]
    unfold runFetchAttempts
    rw [h2]

/-- C3: `validateEvaluation` fails fast whenever a precondition is violated
— blank (all-whitespace) prompt template, no selected trace, empty
selected-variable set, or quality kind without an uploaded reference JSON:
in each case an error is surfaced and no request reaches the scoring
service's preview endpoint. -/
theorem c3_validate_precondition_no_network (env : JsEnv) (id : Option String)
    (transport : Request → Except String (HttpResp ValidationResponse))
    (st : FormState)
    (h : jsTrim st.prompt = "" ∨ st.selectedTrace = none ∨ st.selectedItems = [] ∨
      (id = some "autox-agent-quality" ∧ st.uploadedJson = none)) :
    (validateEvaluation env id transport st).2 = [] ∧
    ((validateEvaluation env id transport st).1.error).isSome = true := by
  unfold validateEvaluation
  by_cases h1 : jsTrim st.prompt = ""
  · simp [h1]
  · simp only [h1, if_false]
    cases hT : st.selectedTrace with
    | none => simp
    | some tr =>
      by_cases h2 : st.selectedItems.length = 0
      · simp [h2]
      · rcases h with h | h | h | ⟨hq, hu⟩
        · exact absurd h h1
        · rw [hT] at h; exact absurd h (by simp)
        · exact absurd (by rw [h]; rfl) h2
        · simp [h2, hq, hu]

/-- C4: calling `executeEvaluation` when no validated session is live
(`validationData` is `null`) fails fast with the sequence error
"Please validate first before executing" and issues no HTTP request. -/
theorem c4_execute_requires_validation (env : JsEnv) (id : Option String)
    (transport : Request → Except String (HttpResp JsValue))
    (st : FormState) (h : st.validationData = none) :
    (executeEvaluation env id transport st).2 = [] ∧
    (executeEvaluation env id transport st).1.error
      = some "Please validate first before executing" := by
  unfold executeEvaluation
  simp [h]

/-- C5: when every execute request fails (transport error or non-2xx
response), `executeEvaluation` records a failure reason while leaving the
validated session, the filled prompt and the stored result unchanged, so a
subsequent `executeEvaluation` with a succeeding transport completes from
the same session (issuing a request, no sequence error). -/
theorem c5_execute_failure_preserves_session (env : JsEnv) (id : Option String)
    (transport : Request → Except String (HttpResp JsValue))
    (st : FormState) (vd : ValidationResponse)
    (hv : st.validationData = some vd)
    (hfail : ∀ r, (∃ msg, transport r = .error msg) ∨
      (∃ resp, transport r = .ok resp ∧ resp.ok = false)) :
    (executeEvaluation env id transport st).1.validationData = some vd ∧
    (executeEvaluation env id transport st).1.prompt = st.prompt ∧
    ((executeEvaluation env id transport st).1.error).isSome = true ∧
    (executeEvaluation env id transport st).1.result = st.result ∧
    (∀ transport₂ resp₂, (∀ r, transport₂ r = .ok resp₂) → resp₂.ok = true →
      (executeEvaluation env id transport₂
          (executeEvaluation env id transport st).1).1.result = some resp₂.json ∧
      (executeEvaluation env id transport₂
          (executeEvaluation env id transport st).1).2 ≠ []) := by
  have base := executeEvaluation_fail_state env id transport st vd hv
    (hfail (executeRequest env id vd))
  refine ⟨base.1, base.2.1, base.2.2.1, base.2.2.2, ?_⟩
  intro t2 r2 ht2 hok2
  exact executeEvaluation_ok_result env id t2 r2 _ vd base.1 ht2 hok2

end AgentXTracker

namespace AgentXTracker

/-- C6 (counterexample): the claim says an unknown evaluation kind is
rejected with a `ConfigurationError` and no request is sent; in the code,
`validateEvaluation` with the unknown kind `"totally-unknown-kind"` and all
other preconditions met resolves the performance preview endpoint and sends
one request to it. -/
theorem c6_unknown_kind_counterexample :
    (validateEvaluation sampleEnv (some "totally-unknown-kind")
        sampleDownTransport sampleReadyState).2.map Request.url
      = ["http://10.0.0.141:8000/process_and_preview_performance"] := rfl

/-- C6 (amended): endpoint selection is a pure function of the evaluation
kind and the two known kinds map to two distinct URLs, but an unknown kind
is not rejected: every kind other than `autox-agent-quality` (unknown kinds
included) maps to the performance URLs, and a preview/execute request is
sent to the selected endpoint. -/
theorem c6_endpoint_selection_amended :
    (previewEndpoint (some "autox-agent-quality")
        ≠ previewEndpoint (some "autox-agent-performance") ∧
      executeEndpoint (some "autox-agent-quality")
        ≠ executeEndpoint (some "autox-agent-performance")) ∧
    (∀ id : Option String, id ≠ some "autox-agent-quality" →
      previewEndpoint id = "http://10.0.0.141:8000/process_and_preview_performance" ∧
      executeEndpoint id = "http://10.0.0.141:8000/evaluate_performance") ∧
    (∀ (env : JsEnv) (id : Option String) transport (st : FormState) (tr : JsValue),
      jsTrim st.prompt ≠ "" → st.selectedTrace = some tr →
      st.selectedItems ≠ [] →
      (id = some "autox-agent-quality" → st.uploadedJson ≠ none) →
      (validateEvaluation env id transport st).2.map Request.url
        = [previewEndpoint id]) ∧
    (∀ (env : JsEnv) (id : Option String) transport (st : FormState)
        (vd : ValidationResponse),
      st.validationData = some vd →
      (executeEvaluation env id transport st).2.map Request.url
        = [executeEndpoint id]) := by
  refine ⟨⟨by decide, by decide⟩, ?_, ?_, ?_⟩
  · intro id hid
    constructor <;> simp [previewEndpoint, executeEndpoint, hid]
  · exact fun env id transport st tr h1 hT h2 hq =>
      validateEvaluation_request_urls env id transport st tr h1 hT h2 hq
  · intro env id transport st vd hv
    unfold executeEvaluation
    rw [hv]
    cases h : transport (executeRequest env id vd) with
    | error msg => simp only [h]; simp [executeRequest]
    | ok resp =>
      simp only [h]
      by_cases hok : resp.ok = false <;> simp [hok, executeRequest]

/-- C7: both timestamp normalizers accept strings, numbers and `Date`
values; every timestamp that is absent (`undefined`/`null`), an unparseable
string, an out-of-range number, or an invalid `Date` is normalized to the
current instant rendered through `toISOString`, and normalization never
raises (it is a total function of the embedding). -/
theorem c7_timestamp_fallback_now (env : JsEnv) (v : JsValue)
    (h : v = .undefined ∨ v = .null ∨
      (∃ s, v = .str s ∧ env.parseDateString s = none) ∨
      (∃ n, v = .num n ∧ dateFromMillis n = none) ∨
      v = .date none) :
    Part3.validateTimestamp env v = nowISO env ∧
    Web.validateTimestamp env v = nowISO env := by
  rcases h with h | h | ⟨s, rfl, hp⟩ | ⟨n, rfl, hp⟩ | h <;>
    subst_vars <;>
    simp [Part3.validateTimestamp, Web.validateTimestamp, truthy]
  · by_cases hs : s = "" <;> simp [hs, hp]
  · by_cases hn : n = 0
    · subst hn; simp [dateFromMillis] at hp
    · simp [hn, hp]

end AgentXTracker

namespace AgentXTracker

/-- C8 (counterexample): the claim says the raw id is used exactly when it
is a non-empty string after trimming and that otherwise a placeholder of
the form `temp-<monotonic>-<random>` is synthesized; the
`custom-trace-table.tsx` normalizer instead uses the empty-string id
verbatim — `""` is not non-empty after trimming and is no `temp-`
placeholder. -/
theorem c8_web_empty_id_counterexample :
    webResultProp (Web.safeGetTraceData sampleEnv (.obj [("id", .str "")])) "id"
      = .str "" ∧
    jsTrim "" = "" ∧
    "".startsWith "temp-" = false := ⟨rfl, rfl, rfl⟩

/-- C8 (amended): in the `part_003` normalizer the **trimmed** raw id is
used exactly when the raw id is a string that is non-empty after trimming,
and otherwise the placeholder `temp-<Date.now()>-<random>` is synthesized;
the placeholder is injective in the generator observation (so records
normalized under distinct `Date.now()`/`Math.random()` observations never
collide on a synthesized id).  The `custom-trace-table.tsx` normalizer
instead uses any string id verbatim (empty or whitespace included) and
falls back to `temp-<Date.now()>` with no random component. -/
theorem c8_id_normalization_amended :
    (∀ (env : JsEnv) (fields : List (String × JsValue)) (s : String),
      getProp (.obj fields) "id" = .str s → jsTrim s ≠ "" →
      (Part3.safeGetTraceData env (.obj fields)).map Part3.TraceDetail.id
        = some (jsTrim s)) ∧
    (∀ (env : JsEnv) (fields : List (String × JsValue)),
      (∀ s, getProp (.obj fields) "id" = .str s → jsTrim s = "") →
      (Part3.safeGetTraceData env (.obj fields)).map Part3.TraceDetail.id
        = some (Part3.tempId env)) ∧
    (∀ e₁ e₂ : JsEnv, Part3.tempId e₁ = Part3.tempId e₂ →
      e₁.nowMillis = e₂.nowMillis ∧ e₁.randSuffix = e₂.randSuffix) ∧
    (∀ (env : JsEnv) (fields : List (String × JsValue)) (s : String),
      truthy (getProp (.obj fields) "trace") = false →
      getProp (.obj fields) "id" = .str s →
      webResultProp (Web.safeGetTraceData env (.obj fields)) "id" = .str s) ∧
    (∀ (env : JsEnv) (fields : List (String × JsValue)),
      truthy (getProp (.obj fields) "trace") = false →
      (∀ s, getProp (.obj fields) "id" ≠ .str s) →
      webResultProp (Web.safeGetTraceData env (.obj fields)) "id"
        = .str ("temp-" ++ natDecimal env.nowMillis)) := by
  refine ⟨?_, ?_, tempId_inj, ?_, ?_⟩
  · intro env fields s hid hne
    rw [part3_id_eval]
    simp [Part3.normId, hid, hne]
  · intro env fields h
    rw [part3_id_eval]
    unfold Part3.normId
    cases hget : getProp (.obj fields) "id" with
    | str s => simp [h s hget]
    | _ => rfl
  · intro env fields s htr hid
    rw [webResultProp_id env fields htr]
    simp [Web.webId, hid]
  · intro env fields htr h
    rw [webResultProp_id env fields htr]
    unfold Web.webId
    cases hget : getProp (.obj fields) "id" with
    | str s => exact absurd hget (h s)
    | _ => rfl

/-- C9 (counterexample): the claim says arrays are dropped from extra
fields, so no extra field of a normalized record is an array; the
`custom-trace-table.tsx` normalizer copies the extra field `foo` holding an
array through verbatim. -/
theorem c9_web_array_extra_counterexample :
    webResultProp
        (Web.safeGetTraceData sampleEnv (.obj [("foo", .arr [.num 1])])) "foo"
      = .arr [.num 1] ∧
    isArray (.arr [.num 1]) = true := ⟨rfl, rfl⟩

/-- C9 (amended): the `part_003` normalizer's `extractSafeProperties` obeys
the claimed rule — every surviving extra field is a primitive copied
through or a shallow copy of a plain non-array object, never an array;
arrays (and `undefined`/`null`) are dropped, and every eligible key is
kept.  The `custom-trace-table.tsx` normalizer instead copies every
undeclared own property through verbatim, arrays included. -/
theorem c9_extra_field_filtering_amended :
    (∀ (trace : JsValue) (k : String) (v : JsValue),
      (k, v) ∈ Part3.extractSafeProperties trace → isArray v = false) ∧
    (∀ (trace : JsValue) (k : String) (v : JsValue),
      (k, v) ∈ Part3.extractSafeProperties trace →
      k ∉ Part3.excludeKeys ∧ Part3.extractOne (getProp trace k) = some v) ∧
    (∀ (trace : JsValue) (k : String) (v : JsValue),
      k ∈ ownKeys trace → k ∉ Part3.excludeKeys →
      Part3.extractOne (getProp trace k) = some v →
      (k, v) ∈ Part3.extractSafeProperties trace) ∧
    (∀ (trace : JsValue) (k : String) (es : List JsValue),
      getProp trace k = .arr es →
      ∀ v, (k, v) ∉ Part3.extractSafeProperties trace) ∧
    (∀ (env : JsEnv) (fields : List (String × JsValue)) (k : String),
      truthy (getProp (.obj fields) "trace") = false →
      k ∉ webDeclaredKeys → k ∈ ownKeys (.obj fields) →
      webResultProp (Web.safeGetTraceData env (.obj fields)) k
        = getProp (.obj fields) k) := by
  refine ⟨?_, mem_extractSafeProperties, ?_, ?_, ?_⟩
  · intro trace k v h
    exact extractOne_not_array _ _ (mem_extractSafeProperties trace k v h).2
  · intro trace k v hk hex hsome
    unfold Part3.extractSafeProperties
    rw [List.mem_filterMap]
    exact ⟨k, hk, by simp [hex, hsome]⟩
  · intro trace k es hget v hmem
    have h := (mem_extractSafeProperties trace k v hmem).2
    rw [hget] at h
    simp [Part3.extractOne] at h
  · intro env fields k htr hdecl hk
    rw [webResultProp_eval env fields k htr, getProp_obj,
      buildSafeTrace_lookup_extra env (.obj fields) k ?base hk, getProp_obj]
    case base =>
      apply lookup_eq_none_of_not_mem
      intro hmem
      apply hdecl
      simpa [Web.baseTrace, webDeclaredKeys] using hmem

/-- C10 (counterexample): the claim says a wrapped payload `{ trace: T }`
and the bare payload `T` normalize to the same result; for the truthy
non-object trace value `42`, the wrapped payload normalizes to a record
while the bare payload normalizes to `null`. -/
theorem c10_wrapped_bare_counterexample :
    (Web.safeGetTraceData sampleEnv (.obj [("trace", .num 42)])).isSome = true ∧
    Web.safeGetTraceData sampleEnv (.num 42) = none := ⟨rfl, rfl⟩

/-- C10 (amended): when the raw payload is a non-array object whose `trace`
property is truthy, `safeGetTraceData` normalizes the value of that
property instead of the top-level object; consequently a wrapped payload
`{ trace: T }` and the bare payload `T` normalize to exactly the same
result whenever `T` is itself a non-array object whose own `trace` property
is not truthy. -/
theorem c10_trace_unwrap_amended :
    (∀ (env : JsEnv) (raw : JsValue),
      isNonArrayObject raw = true → truthy (getProp raw "trace") = true →
      Web.safeGetTraceData env raw
        = some (.obj
            [("trace", .obj (Web.buildSafeTrace env (getProp raw "trace")))])) ∧
    (∀ (env : JsEnv) (fields : List (String × JsValue)),
      truthy (getProp (.obj fields) "trace") = false →
      Web.safeGetTraceData env (.obj [("trace", .obj fields)])
        = Web.safeGetTraceData env (.obj fields)) := by
  constructor
  · intro env raw hobj htr
    cases raw with
    | date m =>
      have ht : truthy (JsValue.date m) = true := rfl
      simp [Web.safeGetTraceData, jsOr, htr, ht, typeofIsObject, isArray]
    | obj fs =>
      have ht : truthy (JsValue.obj fs) = true := rfl
      simp [Web.safeGetTraceData, jsOr, htr, ht, typeofIsObject, isArray]
    | undefined => simp [isNonArrayObject] at hobj
    | null => simp [isNonArrayObject] at hobj
    | bool b => simp [isNonArrayObject] at hobj
    | num n => simp [isNonArrayObject] at hobj
    | str s => simp [isNonArrayObject] at hobj
    | arr es => simp [isNonArrayObject] at hobj
  · intro env fields htr
    have hwrap : getProp (.obj [("trace", JsValue.obj fields)]) "trace"
        = .obj fields := rfl
    have ht1 : truthy (JsValue.obj [("trace", JsValue.obj fields)]) = true := rfl
    have ht2 : truthy (JsValue.obj fields) = true := rfl
    simp [Web.safeGetTraceData, jsOr, hwrap, htr, ht1, ht2, typeofIsObject,
      isArray]

end AgentXTracker

/-! ## Witness theorems -/

namespace AgentXTracker


/-- Witness for C2 at concrete transports. -/
theorem c2_fetch_retry_policy_witness :
    runFetchAttempts retryDecision sampleUnauthorizedFetch 5 0
      = (.error (some "UNAUTHORIZED"), 1) ∧
    (runFetchAttempts retryDecision sampleOtherFailFetch 5 0).2 ≤ 3 ∧
    runFetchAttempts retryDecision sampleOtherFailFetch 5 0
      = (.error (some "INTERNAL_SERVER_ERROR"), 3) ∧
    runFetchAttempts retryDecision sampleThirdTrySucceeds 5 0
      = (.ok (.str "detail"), 3) := by
  refine ⟨(c2_fetch_retry_policy sampleUnauthorizedFetch 5).1 _ rfl (Or.inl rfl),
    (c2_fetch_retry_policy sampleOtherFailFetch 5).2.1,
    (c2_fetch_retry_policy sampleOtherFailFetch 5).2.2.1 _ _ _ (by norm_num)
      rfl rfl rfl (by decide) (by decide) (by decide) (by decide),
    (c2_fetch_retry_policy sampleThirdTrySucceeds 5).2.2.2 _ (by norm_num)
      ?_ ?_ ⟨some "TIMEOUT", rfl⟩ ⟨some "TIMEOUT", rfl⟩ rfl⟩
  · intro e h
    injection h with h'
    subst h'
    exact ⟨by decide, by decide⟩
  · intro e h
    injection h with h'
    subst h'
    exact ⟨by decide, by decide⟩

/-- Witness for C3: quality kind with uploaded reference missing. -/
theorem c3_validate_precondition_no_network_witness :
    (validateEvaluation sampleEnv (some "autox-agent-quality")
        sampleDownTransport sampleReadyState).2 = [] ∧
    ((validateEvaluation sampleEnv (some "autox-agent-quality")
        sampleDownTransport sampleReadyState).1.error).isSome = true :=
  c3_validate_precondition_no_network sampleEnv (some "autox-agent-quality")
    sampleDownTransport sampleReadyState (Or.inr (Or.inr (Or.inr ⟨rfl, rfl⟩)))

/-- Witness for C4 at the idle state. -/
theorem c4_execute_requires_validation_witness :
    (executeEvaluation sampleEnv none sampleFailExecTransport sampleIdleState).2
      = [] ∧
    (executeEvaluation sampleEnv none sampleFailExecTransport
        sampleIdleState).1.error
      = some "Please validate first before executing" :=
  c4_execute_requires_validation sampleEnv none sampleFailExecTransport
    sampleIdleState rfl

/-- Witness for C5: a 500-answering transport, then a succeeding retry. -/
theorem c5_execute_failure_preserves_session_witness :
    (executeEvaluation sampleEnv (some "autox-agent-performance")
        sampleFailExecTransport sampleValidatedState).1.validationData
      = some { session_id := "s1", filled_prompt_preview := "fp", message := "ok" } ∧
    (executeEvaluation sampleEnv (some "autox-agent-performance")
        sampleFailExecTransport sampleValidatedState).1.prompt
      = sampleValidatedState.prompt ∧
    ((executeEvaluation sampleEnv (some "autox-agent-performance")
        sampleFailExecTransport sampleValidatedState).1.error).isSome = true ∧
    (executeEvaluation sampleEnv (some "autox-agent-performance")
        sampleOkExecTransport
        (executeEvaluation sampleEnv (some "autox-agent-performance")
          sampleFailExecTransport sampleValidatedState).1).1.result
      = some (.str "PASS") := by
  have h := c5_execute_failure_preserves_session sampleEnv
    (some "autox-agent-performance") sampleFailExecTransport
    sampleValidatedState
    { session_id := "s1", filled_prompt_preview := "fp", message := "ok" }
    rfl (fun r => Or.inr ⟨_, rfl, rfl⟩)
  exact ⟨h.1, h.2.1, h.2.2.1,
    (h.2.2.2.2 sampleOkExecTransport _ (fun r => rfl) rfl).1⟩

/-- Witness for C6 (amended) at a concrete performance-kind validate, an
unknown kind's endpoints, and a concrete execute. -/
theorem c6_endpoint_selection_amended_witness :
    (validateEvaluation sampleEnv (some "autox-agent-performance")
        sampleDownTransport sampleReadyState).2.map Request.url
      = [previewEndpoint (some "autox-agent-performance")] ∧
    previewEndpoint (some "mystery-kind")
      = "http://10.0.0.141:8000/process_and_preview_performance" ∧
    (executeEvaluation sampleEnv (some "mystery-kind") sampleFailExecTransport
        sampleValidatedState).2.map Request.url
      = [executeEndpoint (some "mystery-kind")] := by
  refine ⟨c6_endpoint_selection_amended.2.2.1 sampleEnv _ _ _ (.obj [])
      (by decide) rfl (by decide) (fun hq => absurd hq (by decide)),
    (c6_endpoint_selection_amended.2.1 (some "mystery-kind") (by decide)).1,
    c6_endpoint_selection_amended.2.2.2 sampleEnv _ _ _ _ rfl⟩

/-- Witness for C7 at the spec's own example `"not-a-date"`. -/
theorem c7_timestamp_fallback_now_witness :
    Part3.validateTimestamp sampleEnv (.str "not-a-date") = nowISO sampleEnv ∧
    Web.validateTimestamp sampleEnv (.str "not-a-date") = nowISO sampleEnv :=
  c7_timestamp_fallback_now sampleEnv (.str "not-a-date")
    (Or.inr (Or.inr (Or.inl ⟨"not-a-date", rfl, rfl⟩)))

end AgentXTracker

namespace AgentXTracker

/-- Witness for C8 (amended) at concrete ids and environments. -/
theorem c8_id_normalization_amended_witness :
    (Part3.safeGetTraceData sampleEnv
        (.obj [("id", .str "  x ")])).map Part3.TraceDetail.id = some "x" ∧
    (Part3.safeGetTraceData sampleEnv (.obj [])).map Part3.TraceDetail.id
      = some (Part3.tempId sampleEnv) ∧
    sampleEnv.nowMillis = sampleEnv.nowMillis ∧
    webResultProp
        (Web.safeGetTraceData sampleEnv (.obj [("id", .str "raw-id")])) "id"
      = .str "raw-id" ∧
    webResultProp (Web.safeGetTraceData sampleEnv (.obj [])) "id"
      = .str ("temp-" ++ natDecimal sampleEnv.nowMillis) := by
  refine ⟨c8_id_normalization_amended.1 sampleEnv _ "  x " rfl (by decide),
    c8_id_normalization_amended.2.1 sampleEnv [] (fun s hs => nomatch hs),
    (c8_id_normalization_amended.2.2.1 sampleEnv sampleEnv rfl).1,
    c8_id_normalization_amended.2.2.2.1 sampleEnv _ "raw-id" rfl rfl,
    c8_id_normalization_amended.2.2.2.2 sampleEnv [] rfl (fun s hs => nomatch hs)⟩

/-- Witness for C9 (amended) at a concrete object-valued extra field, a
dropped array-valued field, and a verbatim web copy. -/
theorem c9_extra_field_filtering_amended_witness :
    ("meta", JsValue.obj [("a", .num 1)])
      ∈ Part3.extractSafeProperties (.obj [("meta", .obj [("a", .num 1)])]) ∧
    isArray (JsValue.obj [("a", .num 1)]) = false ∧
    (("list", JsValue.arr [])
      ∉ Part3.extractSafeProperties (.obj [("list", .arr [.num 2])])) ∧
    webResultProp
        (Web.safeGetTraceData sampleEnv (.obj [("foo", .str "bar")])) "foo"
      = .str "bar" := by
  have hmem := c9_extra_field_filtering_amended.2.2.1
    (.obj [("meta", .obj [("a", .num 1)])]) "meta" (.obj [("a", .num 1)])
    (by decide) (by decide) rfl
  refine ⟨hmem, c9_extra_field_filtering_amended.1 _ _ _ hmem,
    c9_extra_field_filtering_amended.2.2.2.1
      (.obj [("list", .arr [.num 2])]) "list" [.num 2] rfl (.arr []),
    c9_extra_field_filtering_amended.2.2.2.2 sampleEnv [("foo", .str "bar")]
      "foo" rfl (by decide) (by decide)⟩

/-- Witness for C10 (amended) at a wrapped truthy trace property and a
wrapped/bare pair. -/
theorem c10_trace_unwrap_amended_witness :
    Web.safeGetTraceData sampleEnv (.obj [("trace", .num 42)])
      = some (.obj
          [("trace",
            .obj (Web.buildSafeTrace sampleEnv
              (getProp (.obj [("trace", .num 42)]) "trace")))]) ∧
    Web.safeGetTraceData sampleEnv
        (.obj [("trace", .obj [("x", .num 1)])])
      = Web.safeGetTraceData sampleEnv (.obj [("x", .num 1)]) :=
  ⟨c10_trace_unwrap_amended.1 sampleEnv (.obj [("trace", .num 42)]) rfl rfl,
   c10_trace_unwrap_amended.2 sampleEnv [("x", .num 1)] rfl⟩

end AgentXTracker
